import Mathlib

/-! ## Data model, store, engine and HTTP layer -/

/-- A face embedding: a fixed-length numeric vector, entries exact rationals
in place of the floats of the source. -/
abbrev Encoding := List ℚ

/-- One row of the `students` table (`init_db`, src/app.py lines 20-28).
`face_encoding` is the nullable TEXT column holding the JSON-encoded vector;
`none` models SQL NULL. -/
structure StudentRow where
  rowid : Nat
  student_id : String
  name : String
  face_encoding : Option Encoding
  created_at : Nat
deriving DecidableEq

/-- One row of the `attendance` table (`init_db`, src/app.py lines 31-40).
All three data columns are nullable in the schema, hence `Option String`. -/
structure AttendanceRow where
  rowid : Nat
  student_id : Option String
  date : Option String
  status : Option String
  timestamp : Nat
deriving DecidableEq

/-- The SQLite database state: both tables in rowid order, the next
autoincrement ids, and a logical clock standing in for CURRENT_TIMESTAMP. -/
structure DB where
  students : List StudentRow
  attendance : List AttendanceRow
  nextStudentId : Nat
  nextAttendanceId : Nat
  clock : Nat
deriving DecidableEq

/-- The freshly created database produced by `init_db`. -/
def emptyDB : DB :=
  { students := [], attendance := [], nextStudentId := 1, nextAttendanceId := 1, clock := 0 }

/-- Model of `INSERT OR REPLACE INTO students (student_id, name, face_encoding)`
(src/app.py lines 85-88).  `student_id` is UNIQUE, so the conflicting row is
deleted and the new row is appended with a fresh autoincrement rowid. -/
def insertOrReplaceStudent (db : DB) (student_id name : String) (enc : Option Encoding) : DB :=
  { db with
    students := db.students.filter (fun r => r.student_id != student_id) ++
      [{ rowid := db.nextStudentId, student_id := student_id, name := name,
         face_encoding := enc, created_at := db.clock }],
    nextStudentId := db.nextStudentId + 1,
    clock := db.clock + 1 }

/-- Model of `INSERT OR REPLACE INTO attendance (student_id, date, status)`
(src/app.py lines 151-154 and 233-236).  The `attendance` table has no
uniqueness constraint other than its autoincrement primary key, so the
REPLACE clause never fires: the statement appends a fresh row. -/
def insertAttendanceRow (db : DB) (student_id date status : Option String) : DB :=
  { db with
    attendance := db.attendance ++
      [{ rowid := db.nextAttendanceId, student_id := student_id, date := date,
         status := status, timestamp := db.clock }],
    nextAttendanceId := db.nextAttendanceId + 1,
    clock := db.clock + 1 }

/-- Cache reload `AttendanceSystem.load_known_faces` (src/app.py lines 51-66): scan the
`students` table and collect, in rowid order, the pairs of `student_id` and
decoded embedding for every row whose `face_encoding` is truthy (a NULL
column, like an empty string, is skipped by `if encoding_json:`).  The pair
list models the two parallel lists `known_face_ids` /
`known_face_encodings`, which the source appends to in lockstep. -/
def load_known_faces (db : DB) : List (String × Encoding) :=
  db.students.filterMap (fun r => r.face_encoding.map (fun e => (r.student_id, e)))

/-- The in-memory state of `AttendanceSystem`: the database plus the cached
known-faces lists. -/
structure SysState where
  db : DB
  known : List (String × Encoding)
deriving DecidableEq

/-- State built by `AttendanceSystem.__init__` on a fresh database. -/
def initialState : SysState :=
  { db := emptyDB, known := load_known_faces emptyDB }

/-- Engine operation `AttendanceSystem.register_student` (src/app.py lines 68-97).
`face_encodings` is the list of embeddings the provider extracts from the
image; zero detected faces aborts before any database access, otherwise the
first embedding is stored by upsert and the cache is reloaded. -/
def register_student (st : SysState) (student_id name : String)
    (face_encodings : List Encoding) : (Bool × String) × SysState :=
  if face_encodings.length = 0 then
    ((false, "No face detected in the image"), st)
  else
    let face_encoding := face_encodings.headD []
    let db' := insertOrReplaceStudent st.db student_id name (some face_encoding)
    ((true, "Student registered successfully"),
     { db := db', known := load_known_faces db' })

/-- First index of the minimum of a list of distances: `np.argmin`
(src/app.py line 120).  On the empty list (never reached: the source guards
with `len(face_distances) > 0`) it returns `0`. -/
def idxOfMin : List ℚ → Nat
  | [] => 0
  | [_] => 0
  | x :: y :: ys =>
    let j := idxOfMin (y :: ys)
    if x ≤ (y :: ys).getD j 0 then 0 else j + 1

/-- Query `SELECT name FROM students WHERE student_id = ?` followed by
`result[0] if result else "Unknown"` (src/app.py lines 126-131). -/
def lookupName (db : DB) (student_id : String) : String :=
  ((db.students.find? (fun r => r.student_id == student_id)).map (fun r => r.name)).getD
    "Unknown"

/-- A Present entry of the `attendance_results` response payload
(src/app.py lines 133-138). -/
structure AttResult where
  student_id : String
  name : String
  status : String
  confidence : ℚ
deriving DecidableEq

/-- One iteration of the per-face loop of `AttendanceSystem.mark_attendance`
(src/app.py lines 114-138): compute the boolean `compare_faces` list and the
`face_distance` list against the cache, take the first minimum-distance
index, and emit a Present result exactly when the boolean decision at that
index holds.  Iterations are independent of one another, so the loop is the
`filterMap` of this step. -/
def faceStep (cmp : Encoding → Encoding → Bool) (dist : Encoding → Encoding → ℚ)
    (known : List (String × Encoding)) (db : DB) (face_encoding : Encoding) :
    Option AttResult :=
  let matchesList := known.map (fun p => cmp p.2 face_encoding)
  let face_distances := known.map (fun p => dist p.2 face_encoding)
  if 0 < face_distances.length then
    let best_match_index := idxOfMin face_distances
    if matchesList.getD best_match_index false then
      let student_id := (known.getD best_match_index ("", [])).1
      some { student_id := student_id, name := lookupName db student_id,
             status := "Present",
             confidence := 1 - face_distances.getD best_match_index 0 }
    else none
  else none

/-- Body of the roster-sweep loop of `mark_attendance`
(src/app.py lines 149-154): insert a row for one student, Present when the
id was matched this call, else Absent. -/
def sweepStep (present_students : List String) (today : String) (d : DB)
    (student_id : String) : DB :=
  insertAttendanceRow d (some student_id) (some today)
    (some (if student_id ∈ present_students then "Present" else "Absent"))

/-- Engine operation `AttendanceSystem.mark_attendance` (src/app.py lines 99-159).
`face_encodings` is the list of embeddings the provider extracts from the
uploaded image; `today` is the server-local ISO date.  Returns the Present
results payload and the updated state (the cache is not touched). -/
def mark_attendance (cmp : Encoding → Encoding → Bool) (dist : Encoding → Encoding → ℚ)
    (st : SysState) (face_encodings : List Encoding) (today : String) :
    List AttResult × SysState :=
  let attendance_results := face_encodings.filterMap (faceStep cmp dist st.known st.db)
  let present_students := attendance_results.map (fun r => r.student_id)
  let all_students := st.db.students.map (fun r => r.student_id)
  let db' := all_students.foldl (sweepStep present_students today) st.db
  (attendance_results, { st with db := db' })

/-- Python truthiness of an optional form/JSON string field: `not x` holds
for a missing field and for the empty string. -/
def pyFalsy (o : Option String) : Bool :=
  match o with
  | none => true
  | some s => s == ""

/-- Python `x or d` for the nullable status column read back from SQLite:
`None` and the empty string both fall back to the default. -/
def pyOr (o : Option String) (d : String) : String :=
  match o with
  | none => d
  | some s => if s == "" then d else s

/-- The `/api/register` handler (src/app.py lines 164-178): missing image,
then missing or empty `student_id` / `name`, are rejected with
`success:false` before the engine runs. -/
def api_register (st : SysState) (student_id name : Option String)
    (image : Option (List Encoding)) : (Bool × String) × SysState :=
  match image with
  | none => ((false, "No image provided"), st)
  | some face_encodings =>
    if pyFalsy student_id || pyFalsy name then
      ((false, "Student ID and name are required"), st)
    else
      register_student st (student_id.getD "") (name.getD "") face_encodings

/-- The success payload of `/api/mark_attendance` (src/app.py lines 189-194). -/
structure MarkSuccess where
  success : Bool
  results : List AttResult
  total_present : Nat
  message : String
deriving DecidableEq

/-- The `/api/mark_attendance` handler (src/app.py lines 180-194): a missing
image yields the bare failure shape, otherwise the engine runs and the
Present results are echoed. -/
def api_mark_attendance (cmp : Encoding → Encoding → Bool)
    (dist : Encoding → Encoding → ℚ) (st : SysState)
    (image : Option (List Encoding)) (today : String) :
    ((Bool × String) ⊕ MarkSuccess) × SysState :=
  match image with
  | none => (Sum.inl (false, "No image provided"), st)
  | some face_encodings =>
    let out := mark_attendance cmp dist st face_encodings today
    (Sum.inr { success := true, results := out.1, total_present := out.1.length,
               message := "Attendance marked for " ++ toString out.1.length ++ " students" },
     out.2)

/-- The `/api/update_attendance` handler (src/app.py lines 223-240): no
validation at all — the three JSON fields are read with `.get` (so a missing
field is `None`) and inserted as they are; the response is always
`success:true`. -/
def api_update_attendance (st : SysState) (student_id date status : Option String) :
    (Bool × String) × SysState :=
  ((true, "Attendance updated"),
   { st with db := insertAttendanceRow st.db student_id date status })

/-- Ordering `ORDER BY s.student_id` over the `students` table (src/app.py lines
202-207 and 248-253): SQLite TEXT ordering on the unique ids. -/
def sortedStudents (db : DB) : List StudentRow :=
  List.insertionSort (fun a b => a.student_id ≤ b.student_id) db.students

/-- One output row of the LEFT JOIN of `students` with `attendance` on
`(student_id, date)`: the status and timestamp are `none` when the student
has no attendance row for the date. -/
structure JoinRow where
  student_id : String
  name : String
  status : Option String
  timestamp : Option Nat
deriving DecidableEq

/-- The LEFT JOIN shared by `get_attendance` and `export_attendance`
(src/app.py lines 202-207 and 248-253): for each student in `student_id`
order, one row per matching attendance row for the date, or a single
all-NULL row when there is none.  A NULL `student_id` or `date` in
`attendance` matches nothing, as in SQL. -/
def leftJoinDate (db : DB) (d : String) : List JoinRow :=
  (sortedStudents db).flatMap (fun s =>
    let hits := db.attendance.filter
      (fun a => a.student_id == some s.student_id && a.date == some d)
    match hits with
    | [] => [{ student_id := s.student_id, name := s.name, status := none,
               timestamp := none }]
    | _ => hits.map (fun a => { student_id := s.student_id, name := s.name,
                                status := a.status, timestamp := some a.timestamp }))

/-- One entry of the `/api/attendance/{date}` response (src/app.py lines
212-219). -/
structure OutRow where
  student_id : String
  name : String
  status : String
  timestamp : Option Nat
deriving DecidableEq

/-- The `/api/attendance/{date}` handler `get_attendance`
(src/app.py lines 196-221): the join rows with `record[2] or "Not Recorded"`
applied to the status. -/
def get_attendance (db : DB) (d : String) : List OutRow :=
  (leftJoinDate db d).map (fun r =>
    { student_id := r.student_id, name := r.name,
      status := pyOr r.status "Not Recorded", timestamp := r.timestamp })

/-- The CSV data lines built by the loop of `export_attendance`
(src/app.py lines 259-260), one string per join row. -/
def export_rows (db : DB) (d : String) : List String :=
  (leftJoinDate db d).map (fun r =>
    r.student_id ++ "," ++ r.name ++ "," ++ pyOr r.status "Not Recorded" ++ "," ++ d)

/-- The `/api/export/{date}` handler `export_attendance`
(src/app.py lines 242-265): body, HTTP status and the two headers. -/
def export_attendance (db : DB) (d : String) : String × Nat × String × String :=
  ((export_rows db d).foldl (fun acc line => acc ++ line ++ "\n")
     "Student ID,Name,Status,Date\n",
   200, "text/csv", "attachment; filename=attendance_" ++ d ++ ".csv")

/-- A provider decision used in concrete runs: every comparison matches. -/
def cmpDemo : Encoding → Encoding → Bool := fun _ _ => true

/-- A provider distance used in concrete runs: all distances are zero. -/
def distDemo : Encoding → Encoding → ℚ := fun _ _ => 0

/-- The state after registering one student from an image with one detected
face, starting from a fresh system. -/
def stReg : SysState := (register_student initialState "S1" "Alice" [[1]]).2

/-- The state after registering the same student twice, each image with at
least one detected face. -/
def reg2 (st : SysState) (student_id name1 name2 : String) (e1 : Encoding)
    (es1 : List Encoding) (e2 : Encoding) (es2 : List Encoding) : SysState :=
  (register_student (register_student st student_id name1 (e1 :: es1)).2
    student_id name2 (e2 :: es2)).2

/-- Statement of claim C5 over the embedding: the per-call results are the
per-face loop outputs, and for each detected face the first minimum-distance
index over the cache is a genuine minimizer, the face is recorded Present
(with the identity at that index) exactly when the boolean decision at that
same index is true, and otherwise yields no result at all. -/
def C5Prop (cmp : Encoding → Encoding → Bool) (dist : Encoding → Encoding → ℚ)
    (st : SysState) (faces : List Encoding) (today : String) : Prop :=
  (mark_attendance cmp dist st faces today).1
      = faces.filterMap (faceStep cmp dist st.known st.db) ∧
  ∀ f ∈ faces,
    idxOfMin (st.known.map (fun p => dist p.2 f)) < st.known.length ∧
    (∀ j, j < st.known.length →
      dist (st.known.getD (idxOfMin (st.known.map (fun p => dist p.2 f))) ("", [])).2 f
        ≤ dist (st.known.getD j ("", [])).2 f) ∧
    (cmp (st.known.getD (idxOfMin (st.known.map (fun p => dist p.2 f))) ("", [])).2 f = true →
      faceStep cmp dist st.known st.db f = some
        { student_id :=
            (st.known.getD (idxOfMin (st.known.map (fun p => dist p.2 f))) ("", [])).1,
          name := lookupName st.db
            (st.known.getD (idxOfMin (st.known.map (fun p => dist p.2 f))) ("", [])).1,
          status := "Present",
          confidence := 1 -
            dist (st.known.getD (idxOfMin (st.known.map (fun p => dist p.2 f))) ("", [])).2 f } ∧
      ({ student_id :=
            (st.known.getD (idxOfMin (st.known.map (fun p => dist p.2 f))) ("", [])).1,
         name := lookupName st.db
            (st.known.getD (idxOfMin (st.known.map (fun p => dist p.2 f))) ("", [])).1,
         status := "Present",
         confidence := 1 -
            dist (st.known.getD (idxOfMin (st.known.map (fun p => dist p.2 f))) ("", [])).2 f }
        : AttResult) ∈ (mark_attendance cmp dist st faces today).1) ∧
    (cmp (st.known.getD (idxOfMin (st.known.map (fun p => dist p.2 f))) ("", [])).2 f = false →
      faceStep cmp dist st.known st.db f = none)

/-- Statement of claim C6 over the embedding: every emitted Present result
comes from some detected face, and its reported confidence is one minus the
distance to the matched stored embedding, the one at the (genuinely
minimizing) first minimum-distance index. -/
def C6Prop (cmp : Encoding → Encoding → Bool) (dist : Encoding → Encoding → ℚ)
    (st : SysState) (faces : List Encoding) (r : AttResult) : Prop :=
  ∃ f ∈ faces,
    faceStep cmp dist st.known st.db f = some r ∧
    idxOfMin (st.known.map (fun p => dist p.2 f)) < st.known.length ∧
    r.confidence = 1 -
      dist (st.known.getD (idxOfMin (st.known.map (fun p => dist p.2 f))) ("", [])).2 f ∧
    ∀ j, j < st.known.length →
      dist (st.known.getD (idxOfMin (st.known.map (fun p => dist p.2 f))) ("", [])).2 f
        ≤ dist (st.known.getD j ("", [])).2 f

/-- The one Present result of the concrete single-student run. -/
def rDemo : AttResult :=
  { student_id := "S1", name := "Alice", status := "Present",
    confidence := 1 - (stReg.known.map (fun p => distDemo p.2 [1])).getD 0 0 }

/-- The join row of a student with no attendance row for the date: all
attendance columns NULL. -/
def joinNone (s : StudentRow) : JoinRow :=
  { student_id := s.student_id, name := s.name, status := none, timestamp := none }

/-- The response entry of a student with no attendance row for the date. -/
def outNotRec (s : StudentRow) : OutRow :=
  { student_id := s.student_id, name := s.name, status := "Not Recorded",
    timestamp := none }

/-- Statement of claim C7 over the embedding: when a date has no attendance
rows at all, the attendance query returns every known student (in id order)
with status "Not Recorded"; and in general any known student with no
attendance row for the date surfaces with status "Not Recorded". -/
def C7Prop (db : DB) (d : String) : Prop :=
  ((∀ a ∈ db.attendance, a.date ≠ some d) →
    get_attendance db d = (sortedStudents db).map outNotRec) ∧
  ∀ s ∈ db.students,
    (∀ a ∈ db.attendance, ¬(a.student_id = some s.student_id ∧ a.date = some d)) →
    outNotRec s ∈ get_attendance db d

/-- Statement of the amended claim C9 over the embedding: the register and
mark_attendance handlers reject a missing image, and register rejects a
missing or empty student_id or name, each with a 200-style
`success:false` body and no state change; the update_attendance handler
performs no validation at all — it answers `success:true` and appends an
attendance row carrying the given (possibly NULL) column values. -/
def C9Prop (cmp : Encoding → Encoding → Bool) (dist : Encoding → Encoding → ℚ)
    (st : SysState) (today : String) (student_id name : Option String)
    (faces : List Encoding) (d status : Option String) : Prop :=
  api_register st student_id name none = ((false, "No image provided"), st) ∧
  ((pyFalsy student_id || pyFalsy name) = true →
    api_register st student_id name (some faces)
      = ((false, "Student ID and name are required"), st)) ∧
  api_mark_attendance cmp dist st none today
    = (Sum.inl (false, "No image provided"), st) ∧
  api_update_attendance st student_id d status
    = ((true, "Attendance updated"),
       { st with db := insertAttendanceRow st.db student_id d status })

/-- Statement of claim C10 over the embedding, for a system whose cache is a
fresh reload of the database: a student row with a NULL encoding is absent
from the cache, never appears among the Present results of a
`mark_attendance` call, and still receives an Absent row from the roster
sweep of that call. -/
def C10Prop (cmp : Encoding → Encoding → Bool) (dist : Encoding → Encoding → ℚ)
    (db : DB) (faces : List Encoding) (today : String) (s : StudentRow) : Prop :=
  (∀ p ∈ load_known_faces db, p.1 ≠ s.student_id) ∧
  (∀ r ∈ (mark_attendance cmp dist { db := db, known := load_known_faces db }
      faces today).1, r.student_id ≠ s.student_id) ∧
  ∃ a ∈ ((mark_attendance cmp dist { db := db, known := load_known_faces db }
      faces today).2).db.attendance,
    a.student_id = some s.student_id ∧ a.date = some today ∧ a.status = some "Absent"

/-- The unregistered-encoding row of the C10 witness database. -/
def sNull : StudentRow :=
  { rowid := 1, student_id := "S2", name := "Bob", face_encoding := none,
    created_at := 0 }

/-- A database holding exactly one student, with a NULL face encoding. -/
def dbNull : DB :=
  { students := [sNull], attendance := [], nextStudentId := 2,
    nextAttendanceId := 1, clock := 1 }

/-! ## Helper lemmas and claim theorems -/

/-! ## Helper lemmas -/

theorem getD_map_of_lt {α β : Type} (g : α → β) (l : List α) (i : Nat) (d : β) (d0 : α)
    (h : i < l.length) : (l.map g).getD i d = g (l.getD i d0) := by
  induction l generalizing i with
  | nil => simp at h
  | cons a t ih =>
    cases i with
    | zero => simp
    | succ k => simpa using ih k (by simpa using h)

theorem getD_mem_of_lt {α : Type} (l : List α) (i : Nat) (d : α) (h : i < l.length) :
    l.getD i d ∈ l := by
  induction l generalizing i with
  | nil => simp at h
  | cons a t ih =>
    cases i with
    | zero => simp
    | succ k => simpa using Or.inr (ih k (by simpa using h))

theorem idxOfMin_lt : ∀ (l : List ℚ), l ≠ [] → idxOfMin l < l.length
  | [_], _ => by simp [idxOfMin]
  | x :: y :: ys, _ => by
    have ih := idxOfMin_lt (y :: ys) (by simp)
    simp only [idxOfMin]
    split
    · simp
    · simpa [Nat.succ_lt_succ_iff] using ih

theorem idxOfMin_min : ∀ (l : List ℚ) (j : Nat), j < l.length →
    l.getD (idxOfMin l) 0 ≤ l.getD j 0
  | [], j, h => by simp at h
  | [x], j, h => by
    have hj : j = 0 := by simpa using Nat.lt_one_iff.mp (by simpa using h)
    subst hj; simp [idxOfMin]
  | x :: y :: ys, j, h => by
    have ih := idxOfMin_min (y :: ys)
    simp only [idxOfMin]
    split
    case isTrue hx =>
      cases j with
      | zero => simp
      | succ k =>
        have hk : k < (y :: ys).length := by simpa using h
        have := le_trans hx (ih k hk)
        simpa using this
    case isFalse hx =>
      have hx' : (y :: ys).getD (idxOfMin (y :: ys)) 0 ≤ x := le_of_not_le hx
      cases j with
      | zero => simpa using hx'
      | succ k =>
        have hk : k < (y :: ys).length := by simpa using h
        simpa using ih k hk

/-- Inversion of `faceStep`: a Present result is only produced when the cache
is non-empty and the boolean decision holds at the first minimum-distance
index, and the result fields are determined by that index. -/
theorem faceStep_inv (cmp : Encoding → Encoding → Bool) (dist : Encoding → Encoding → ℚ)
    (known : List (String × Encoding)) (db : DB) (f : Encoding) (r : AttResult)
    (h : faceStep cmp dist known db f = some r) :
    idxOfMin (known.map (fun p => dist p.2 f)) < known.length ∧
    cmp (known.getD (idxOfMin (known.map (fun p => dist p.2 f))) ("", [])).2 f = true ∧
    r = { student_id := (known.getD (idxOfMin (known.map (fun p => dist p.2 f))) ("", [])).1,
          name := lookupName db
            (known.getD (idxOfMin (known.map (fun p => dist p.2 f))) ("", [])).1,
          status := "Present",
          confidence :=
            1 - dist (known.getD (idxOfMin (known.map (fun p => dist p.2 f))) ("", [])).2 f } := by
  simp only [faceStep] at h
  by_cases h0 : 0 < (known.map (fun p => dist p.2 f)).length
  · rw [if_pos h0] at h
    have hlt : idxOfMin (known.map (fun p => dist p.2 f)) < known.length := by
      have := idxOfMin_lt (known.map (fun p => dist p.2 f))
        (List.ne_nil_of_length_pos h0)
      simpa using this
    rw [getD_map_of_lt (fun p => cmp p.2 f) known _ false ("", []) hlt,
        getD_map_of_lt (fun p => dist p.2 f) known _ 0 ("", []) hlt] at h
    by_cases hc : cmp (known.getD (idxOfMin (known.map (fun p => dist p.2 f))) ("", [])).2 f
      = true
    · rw [if_pos hc] at h
      exact ⟨hlt, hc, (Option.some.inj h).symm⟩
    · rw [if_neg hc] at h
      exact absurd h (by simp)
  · rw [if_neg h0] at h
    exact absurd h (by simp)

/-- The positive branch of `faceStep`, stated directly. -/
theorem faceStep_pos (cmp : Encoding → Encoding → Bool) (dist : Encoding → Encoding → ℚ)
    (known : List (String × Encoding)) (db : DB) (f : Encoding) (hne : known ≠ [])
    (hc : cmp (known.getD (idxOfMin (known.map (fun p => dist p.2 f))) ("", [])).2 f = true) :
    faceStep cmp dist known db f = some
      { student_id := (known.getD (idxOfMin (known.map (fun p => dist p.2 f))) ("", [])).1,
        name := lookupName db
          (known.getD (idxOfMin (known.map (fun p => dist p.2 f))) ("", [])).1,
        status := "Present",
        confidence :=
          1 - dist (known.getD (idxOfMin (known.map (fun p => dist p.2 f))) ("", [])).2 f } := by
  have h0 : 0 < (known.map (fun p => dist p.2 f)).length := by
    simpa using List.length_pos.mpr hne
  have hlt : idxOfMin (known.map (fun p => dist p.2 f)) < known.length := by
    have := idxOfMin_lt (known.map (fun p => dist p.2 f)) (List.ne_nil_of_length_pos h0)
    simpa using this
  simp only [faceStep]
  rw [if_pos h0, getD_map_of_lt (fun p => cmp p.2 f) known _ false ("", []) hlt,
      getD_map_of_lt (fun p => dist p.2 f) known _ 0 ("", []) hlt, if_pos hc]

/-- The negative branch of `faceStep`: when the boolean decision fails at the
minimum-distance index, the face yields no result. -/
theorem faceStep_neg (cmp : Encoding → Encoding → Bool) (dist : Encoding → Encoding → ℚ)
    (known : List (String × Encoding)) (db : DB) (f : Encoding) (hne : known ≠ [])
    (hc : cmp (known.getD (idxOfMin (known.map (fun p => dist p.2 f))) ("", [])).2 f
      = false) :
    faceStep cmp dist known db f = none := by
  have h0 : 0 < (known.map (fun p => dist p.2 f)).length := by
    simpa using List.length_pos.mpr hne
  have hlt : idxOfMin (known.map (fun p => dist p.2 f)) < known.length := by
    have := idxOfMin_lt (known.map (fun p => dist p.2 f)) (List.ne_nil_of_length_pos h0)
    simpa using this
  simp only [faceStep]
  rw [if_pos h0, getD_map_of_lt (fun p => cmp p.2 f) known _ false ("", []) hlt, hc]
  simp

/-- Rows already present in `attendance` survive the roster sweep: every
sweep step only appends. -/
theorem sweep_preserves (present : List String) (today : String) :
    ∀ (ids : List String) (db : DB) (a : AttendanceRow), a ∈ db.attendance →
      a ∈ (ids.foldl (sweepStep present today) db).attendance := by
  intro ids
  induction ids with
  | nil => intro db a ha; simpa using ha
  | cons i t ih =>
    intro db a ha
    exact ih (sweepStep present today db i) a
      (by simp [sweepStep, insertAttendanceRow]; exact Or.inl ha)

/-- The roster sweep writes, for every swept student id, a row for today with
status Present exactly when the id is in the matched set. -/
theorem sweep_writes (present : List String) (today : String) :
    ∀ (ids : List String) (db : DB) (sid : String), sid ∈ ids →
      ∃ a ∈ (ids.foldl (sweepStep present today) db).attendance,
        a.student_id = some sid ∧ a.date = some today ∧
        a.status = some (if sid ∈ present then "Present" else "Absent") := by
  intro ids
  induction ids with
  | nil => intro db sid h; simp at h
  | cons i t ih =>
    intro db sid h
    rcases List.mem_cons.mp h with heq | htl
    · subst heq
      refine ⟨{ rowid := db.nextAttendanceId, student_id := some sid,
                date := some today,
                status := some (if sid ∈ present then "Present" else "Absent"),
                timestamp := db.clock }, ?_, rfl, rfl, rfl⟩
      exact sweep_preserves present today t (sweepStep present today db sid) _
        (by simp [sweepStep, insertAttendanceRow])
    · exact ih (sweepStep present today db i) sid htl

/-- Flat-mapping a singleton-valued function is a map. -/
theorem flatMap_singleton_eq_map {α β : Type} (l : List α) (g : α → β) :
    l.flatMap (fun a => [g a]) = l.map g := by
  induction l with
  | nil => rfl
  | cons a t ih => simp [ih]

/-- Unfolding of `register_student` on an image with at least one detected face:
it performs
the upsert and the cache reload. -/
theorem register_cons (st : SysState) (student_id name : String) (e : Encoding)
    (es : List Encoding) :
    register_student st student_id name (e :: es) =
      ((true, "Student registered successfully"),
       { db := insertOrReplaceStudent st.db student_id name (some e),
         known := load_known_faces (insertOrReplaceStudent st.db student_id name (some e)) }) := by
  simp [register_student]

/-- C1: the claim says the attendance store holds at most one status row per
(student_id, date), every operation upserting rather than appending.  The
code violates it: two `update_attendance` writes for the same student and
date leave two rows, because the `attendance` table created by `init_db` has
no UNIQUE constraint on (student_id, date), so its `INSERT OR REPLACE` is a
plain append.  This theorem evaluates the code at the failing input. -/
theorem C1_attendance_rows_accumulate :
    ((api_update_attendance
        (api_update_attendance initialState (some "S1") (some "2025-01-01")
          (some "Present")).2
        (some "S1") (some "2025-01-01") (some "Absent")).2).db.attendance.countP
      (fun a => a.student_id == some "S1" && a.date == some "2025-01-01") = 2 := by
  decide

/-- C2: the claim says the second `mark_attendance` call of a day fully
overwrites the first, so that querying attendance for the day shows exactly
the assignment of the second call.  The code violates it: with one registered
student, a first call that matches the student (one detected face, distance
zero) and a second call the same day with no detected faces, the query for
the day returns two entries for the single known student — the Present row
of the first call is still there next to the Absent row of the second. -/
theorem C2_second_call_does_not_overwrite :
    ((mark_attendance cmpDemo distDemo
        (mark_attendance cmpDemo distDemo stReg [[1]] "2025-01-01").2
        [] "2025-01-01").2).db.students.length = 1 ∧
    (get_attendance ((mark_attendance cmpDemo distDemo
        (mark_attendance cmpDemo distDemo stReg [[1]] "2025-01-01").2
        [] "2025-01-01").2).db "2025-01-01").length = 2 ∧
    (get_attendance ((mark_attendance cmpDemo distDemo
        (mark_attendance cmpDemo distDemo stReg [[1]] "2025-01-01").2
        [] "2025-01-01").2).db "2025-01-01").countP
      (fun r => r.status == "Present") = 1 ∧
    (get_attendance ((mark_attendance cmpDemo distDemo
        (mark_attendance cmpDemo distDemo stReg [[1]] "2025-01-01").2
        [] "2025-01-01").2).db "2025-01-01").countP
      (fun r => r.status == "Absent") = 1 := by
  decide

/-- C3: registering from an image in which the provider detects zero faces
returns success `false` with the message "No face detected in the image" and
returns the state unchanged — in particular the students table gains no row
and loses none, and the cache is untouched. -/
theorem C3_no_face_register_unchanged (st : SysState) (student_id name : String) :
    register_student st student_id name [] =
      ((false, "No face detected in the image"), st) := rfl

/-- C8: the claim says the CSV export for a date with N known students has
exactly N data lines after the header.  The code violates it: after two
same-day `mark_attendance` calls the single known student has two attendance
rows for the date (the table lacks a UNIQUE constraint on
(student_id, date)), and the LEFT JOIN behind the export emits one data line
per row, so the export holds two data lines for one student. -/
theorem C8_export_duplicate_lines :
    ((mark_attendance cmpDemo distDemo
        (mark_attendance cmpDemo distDemo stReg [[1]] "2025-01-01").2
        [] "2025-01-01").2).db.students.length = 1 ∧
    (export_rows ((mark_attendance cmpDemo distDemo
        (mark_attendance cmpDemo distDemo stReg [[1]] "2025-01-01").2
        [] "2025-01-01").2).db "2025-01-01").length = 2 := by
  decide

/-- C9 counterexample: the claim says a `update_attendance` request with a
missing required field returns `success:false` and performs no store
mutation.  The handler has no validation: with `status` missing it still
answers `success:true` and inserts a row whose status column is SQL NULL. -/
theorem C9_update_without_status_mutates :
    (api_update_attendance initialState (some "S1") (some "2025-01-01") none).1
      = (true, "Attendance updated") ∧
    ((api_update_attendance initialState (some "S1") (some "2025-01-01") none).2).db.attendance
      = [{ rowid := 1, student_id := some "S1", date := some "2025-01-01",
           status := none, timestamp := 0 }] := by
  decide

/-- Filtering for an id after the replace-style student upsert yields exactly
the freshly inserted row. -/
theorem filter_after_replace (l : List StudentRow) (student_id : String) :
    ∀ (row : StudentRow), row.student_id = student_id →
      (l.filter (fun r => r.student_id != student_id) ++ [row]).filter
        (fun r => r.student_id == student_id) = [row] := by
  intro row hrow
  rw [List.filter_append]
  have h1 : (l.filter (fun r => r.student_id != student_id)).filter
      (fun r => r.student_id == student_id) = [] := by
    rw [List.filter_filter]
    refine List.filter_eq_nil_iff.mpr ?_
    intro a _
    by_cases h : a.student_id = student_id <;> simp [h]
  rw [h1]
  simp [hrow]

/-- C4: re-registering a student id (both images containing a detectable
face) leaves exactly one students row for the id, carrying the second
first embedding of the second image, and the in-memory cache equals a fresh reload of
the resulting table, so every cache entry for the id holds the latest
embedding only. -/
theorem C4_reregistration_replaces (st : SysState) (student_id name1 name2 : String)
    (e1 : Encoding) (es1 : List Encoding) (e2 : Encoding) (es2 : List Encoding) :
    (((reg2 st student_id name1 name2 e1 es1 e2 es2).db.students.filter
        (fun r => r.student_id == student_id)).map (fun r => r.face_encoding))
      = [some e2] ∧
    (reg2 st student_id name1 name2 e1 es1 e2 es2).known
      = load_known_faces (reg2 st student_id name1 name2 e1 es1 e2 es2).db ∧
    ∀ p ∈ (reg2 st student_id name1 name2 e1 es1 e2 es2).known,
      p.1 = student_id → p.2 = e2 := by
  have hdb : (reg2 st student_id name1 name2 e1 es1 e2 es2).db =
      insertOrReplaceStudent ((register_student st student_id name1 (e1 :: es1)).2).db
        student_id name2 (some e2) := by
    simp [reg2, register_cons]
  have hknown : (reg2 st student_id name1 name2 e1 es1 e2 es2).known
      = load_known_faces (reg2 st student_id name1 name2 e1 es1 e2 es2).db := by
    simp [reg2, register_cons]
  refine ⟨?_, hknown, ?_⟩
  · rw [hdb]
    simp only [insertOrReplaceStudent]
    rw [filter_after_replace _ student_id _ rfl]
    rfl
  · intro p hp hpid
    rw [hknown, hdb] at hp
    rcases List.mem_filterMap.mp hp with ⟨r, hr, heq⟩
    rcases Option.map_eq_some'.mp heq with ⟨e, he, hpe⟩
    have hpr : p.1 = r.student_id := by rw [← hpe]
    have hrid : r.student_id = student_id := by rw [← hpr, hpid]
    simp only [insertOrReplaceStudent] at hr
    rcases List.mem_append.mp hr with hl | hnew
    · have := (List.mem_filter.mp hl).2
      rw [hrid] at this
      simp at this
    · have hre := List.mem_singleton.mp hnew
      rw [hre] at he
      have hee : e2 = e := Option.some.inj he
      rw [← hpe]
      exact hee.symm

/-- C5: in a `mark_attendance` call with a non-empty cache, each detected
face is matched to the identity at the first minimum-distance index over the
cached encodings, recorded Present if and only if the boolean compare
decision at that same index is true, and silently dropped otherwise. -/
theorem C5_min_distance_compare_gate (cmp : Encoding → Encoding → Bool)
    (dist : Encoding → Encoding → ℚ) (st : SysState) (faces : List Encoding)
    (today : String) (hne : st.known ≠ []) : C5Prop cmp dist st faces today := by
  refine ⟨rfl, ?_⟩
  intro f hf
  have h0 : 0 < (st.known.map (fun p => dist p.2 f)).length := by
    simpa using List.length_pos.mpr hne
  have hlt : idxOfMin (st.known.map (fun p => dist p.2 f)) < st.known.length := by
    have := idxOfMin_lt (st.known.map (fun p => dist p.2 f))
      (List.ne_nil_of_length_pos h0)
    simpa using this
  refine ⟨hlt, ?_, ?_, ?_⟩
  · intro j hj
    have := idxOfMin_min (st.known.map (fun p => dist p.2 f)) j (by simpa using hj)
    rwa [getD_map_of_lt (fun p => dist p.2 f) st.known _ 0 ("", []) hlt,
         getD_map_of_lt (fun p => dist p.2 f) st.known j 0 ("", []) hj] at this
  · intro hc
    have hstep := faceStep_pos cmp dist st.known st.db f hne hc
    exact ⟨hstep, List.mem_filterMap.mpr ⟨f, hf, hstep⟩⟩
  · intro hc
    exact faceStep_neg cmp dist st.known st.db f hne hc

/-- C5 witness: a concrete run with one registered student and one detected
face, cache non-empty. -/
theorem C5_min_distance_compare_gate_witness :
    stReg.known ≠ [] ∧ C5Prop cmpDemo distDemo stReg [[1]] "2025-01-01" :=
  ⟨by decide,
   C5_min_distance_compare_gate cmpDemo distDemo stReg [[1]] "2025-01-01" (by decide)⟩

/-- C6: every Present result of a `mark_attendance` call reports confidence
equal to 1 minus the distance between the detected embedding and the
matched minimum-distance stored embedding. -/
theorem C6_confidence_formula (cmp : Encoding → Encoding → Bool)
    (dist : Encoding → Encoding → ℚ) (st : SysState) (faces : List Encoding)
    (today : String) (r : AttResult)
    (hr : r ∈ (mark_attendance cmp dist st faces today).1) :
    C6Prop cmp dist st faces r := by
  have hr' : r ∈ faces.filterMap (faceStep cmp dist st.known st.db) := hr
  rcases List.mem_filterMap.mp hr' with ⟨f, hf, hstep⟩
  rcases faceStep_inv cmp dist st.known st.db f r hstep with ⟨hlt, _, hrEq⟩
  refine ⟨f, hf, hstep, hlt, ?_, ?_⟩
  · rw [hrEq]
  · intro j hj
    have := idxOfMin_min (st.known.map (fun p => dist p.2 f)) j (by simpa using hj)
    rwa [getD_map_of_lt (fun p => dist p.2 f) st.known _ 0 ("", []) hlt,
         getD_map_of_lt (fun p => dist p.2 f) st.known j 0 ("", []) hj] at this

/-- C6 witness: the concrete run emits `rDemo`, and the formula holds of it. -/
theorem C6_confidence_formula_witness :
    rDemo ∈ (mark_attendance cmpDemo distDemo stReg [[1]] "2025-01-01").1 ∧
    C6Prop cmpDemo distDemo stReg [[1]] rDemo :=
  ⟨List.mem_singleton_self rDemo,
   C6_confidence_formula cmpDemo distDemo stReg [[1]] "2025-01-01" rDemo
     (List.mem_singleton_self rDemo)⟩

/-- When every student misses the date, the LEFT JOIN degenerates to one
all-NULL row per student. -/
theorem leftJoin_all_empty (db : DB) (d : String)
    (hfix : ∀ s : StudentRow, db.attendance.filter
      (fun a => a.student_id == some s.student_id && a.date == some d) = []) :
    leftJoinDate db d = (sortedStudents db).map joinNone := by
  unfold leftJoinDate
  induction (sortedStudents db) with
  | nil => rfl
  | cons s t ih =>
    simp only [List.flatMap_cons, List.map_cons, hfix s]
    rw [ih]
    rfl

/-- C7: for any date with no attendance rows, `GET /api/attendance/{date}`
lists every known student as "Not Recorded", and any known student without a
row for the date defaults to "Not Recorded". -/
theorem C7_not_recorded_default (db : DB) (d : String) : C7Prop db d := by
  constructor
  · intro hemp
    have hfix : ∀ s : StudentRow, db.attendance.filter
        (fun a => a.student_id == some s.student_id && a.date == some d) = [] := by
      intro s
      refine List.filter_eq_nil_iff.mpr ?_
      intro a ha
      have := hemp a ha
      simp [this]
    unfold get_attendance
    rw [leftJoin_all_empty db d hfix, List.map_map]
    rfl
  · intro s hs hnorow
    have hsSorted : s ∈ sortedStudents db := by
      unfold sortedStudents
      exact ((List.perm_insertionSort (fun a b => a.student_id ≤ b.student_id)
        db.students).mem_iff).mpr hs
    have hfix : db.attendance.filter
        (fun a => a.student_id == some s.student_id && a.date == some d) = [] := by
      refine List.filter_eq_nil_iff.mpr ?_
      intro a ha
      have := hnorow a ha
      simpa using this
    have hjmem : joinNone s ∈ leftJoinDate db d := by
      unfold leftJoinDate
      refine List.mem_flatMap.mpr ⟨s, hsSorted, ?_⟩
      rw [hfix]
      simp [joinNone]
    unfold get_attendance
    exact List.mem_map.mpr ⟨joinNone s, hjmem, rfl⟩

/-- C7 witness: one registered student, an empty attendance table. -/
theorem C7_not_recorded_default_witness :
    (∀ a ∈ stReg.db.attendance, a.date ≠ some "2025-01-02") ∧
    C7Prop stReg.db "2025-01-02" :=
  ⟨by decide, C7_not_recorded_default stReg.db "2025-01-02"⟩

/-- C9 (amended): missing-field handling as the code implements it — the
register and mark handlers return `success:false` with a message and leave
the store untouched, while update_attendance never validates and always
mutates. -/
theorem C9_missing_fields_amended (cmp : Encoding → Encoding → Bool)
    (dist : Encoding → Encoding → ℚ) (st : SysState) (today : String)
    (student_id name : Option String) (faces : List Encoding)
    (d status : Option String) :
    C9Prop cmp dist st today student_id name faces d status := by
  refine ⟨rfl, ?_, rfl, rfl⟩
  intro h
  simp [api_register, h]

/-- C9 witness: a register call with an empty student id is rejected while
the state stands still, and the unvalidated update path is exercised with a
missing status. -/
theorem C9_missing_fields_amended_witness :
    (pyFalsy (some "") || pyFalsy (some "Bob")) = true ∧
    C9Prop cmpDemo distDemo initialState "2025-01-01" (some "") (some "Bob") [[1]]
      (some "2025-01-01") none :=
  ⟨by decide,
   C9_missing_fields_amended cmpDemo distDemo initialState "2025-01-01"
     (some "") (some "Bob") [[1]] (some "2025-01-01") none⟩

/-- C10: a students row whose face_encoding is NULL is excluded from the
cache reload, so no mark_attendance call reports it Present, yet the
roster sweep still writes an Absent record for it. -/
theorem C10_null_encoding_swept_absent (cmp : Encoding → Encoding → Bool)
    (dist : Encoding → Encoding → ℚ) (db : DB) (faces : List Encoding)
    (today : String) (s : StudentRow) (hs : s ∈ db.students)
    (henc : s.face_encoding = none)
    (hnodup : (db.students.map (fun r => r.student_id)).Nodup) :
    C10Prop cmp dist db faces today s := by
  have h1 : ∀ p ∈ load_known_faces db, p.1 ≠ s.student_id := by
    intro p hp hpe
    rcases List.mem_filterMap.mp hp with ⟨r, hr, heq⟩
    rcases Option.map_eq_some'.mp heq with ⟨e, he, hpr⟩
    have hre : r.student_id = s.student_id := by rw [← hpr] at hpe; exact hpe
    have hrs : r = s := List.inj_on_of_nodup_map hnodup hr hs hre
    rw [hrs, henc] at he
    exact Option.noConfusion he
  have h2 : ∀ r ∈ faces.filterMap (faceStep cmp dist (load_known_faces db) db),
      r.student_id ≠ s.student_id := by
    intro r hr
    rcases List.mem_filterMap.mp hr with ⟨f, _, hstep⟩
    rcases faceStep_inv cmp dist (load_known_faces db) db f r hstep with ⟨hlt, _, hrEq⟩
    have hmem : (load_known_faces db).getD
        (idxOfMin ((load_known_faces db).map (fun p => dist p.2 f))) ("", [])
        ∈ load_known_faces db := getD_mem_of_lt _ _ _ hlt
    rw [hrEq]
    exact h1 _ hmem
  refine ⟨h1, fun r hr => h2 r hr, ?_⟩
  have hsid : s.student_id ∈ db.students.map (fun r => r.student_id) :=
    List.mem_map.mpr ⟨s, hs, rfl⟩
  have hnp : s.student_id ∉ (faces.filterMap
      (faceStep cmp dist (load_known_faces db) db)).map (fun r => r.student_id) := by
    intro hmem
    rcases List.mem_map.mp hmem with ⟨r, hrres, hre⟩
    exact h2 r hrres hre
  rcases sweep_writes ((faces.filterMap (faceStep cmp dist (load_known_faces db) db)).map
      (fun r => r.student_id)) today (db.students.map (fun r => r.student_id)) db
      s.student_id hsid with ⟨a, hamem, ha1, ha2, ha3⟩
  refine ⟨a, hamem, ha1, ha2, ?_⟩
  rw [ha3, if_neg hnp]

/-- C10 witness: the single NULL-encoded student of a concrete database is
swept Absent by a call that detects no faces. -/
theorem C10_null_encoding_swept_absent_witness :
    sNull ∈ dbNull.students ∧ sNull.face_encoding = none ∧
    (dbNull.students.map (fun r => r.student_id)).Nodup ∧
    C10Prop cmpDemo distDemo dbNull [] "2025-01-04" sNull :=
  ⟨by decide, rfl, by decide,
   C10_null_encoding_swept_absent cmpDemo distDemo dbNull [] "2025-01-04" sNull
     (by decide) rfl (by decide)⟩
